import Mathlib

/-!
Shallow embedding of `character-authenticator` (src/src/base.js, src/lib/post.js).

The repository defines a base class for pluggable authenticators: a four step
request pipeline (authenticate, identify, session-set, redirect) over a host
framework that supplies an identity database, an event bus and redirect
responses.  We embed the data layer as explicit state (`Database`, `World`)
and the pipeline as pure functions returning `Except Err _`, mirroring the
JavaScript control flow statement by statement.
-/

namespace CharacterAuth

/-- `http-codes` constants used by base.js. -/
def SEE_OTHER : Nat := 303

def NOT_FOUND : Nat := 404

def INTERNAL_SERVER_ERROR : Nat := 500

/-- Node's `http.STATUS_CODES` table, restricted to the codes this program
can meet (`httpCodeMessage` in base.js). `none` models `undefined`. -/
def httpCodeMessage : Nat → Option String
  | 200 => some "OK"
  | 303 => some "See Other"
  | 400 => some "Bad Request"
  | 401 => some "Unauthorized"
  | 403 => some "Forbidden"
  | 404 => some "Not Found"
  | 500 => some "Internal Server Error"
  | _ => none

/-- A JS `Error` as base.js uses it: a message plus an optional
`httpStatusCode` property. -/
structure Err where
  message : String
  httpStatusCode : Option Nat
deriving Repr, DecidableEq

/-- An authenticator account: the external record returned by the subclass
`authenticate` hook.  base.js reads `account.id` and `account.deferred`. -/
structure Account where
  id : Nat
  deferred : Bool
deriving Repr, DecidableEq

/-- A row of the `Authentication$Account` model: links a core identity to an
authenticator account under an authenticator name. -/
structure LinkRecord where
  authenticatorAccountId : Nat
  authenticatorName : String
  identityId : Nat
deriving Repr, DecidableEq

/-- A row of the `Core$Identity` model (base.js only selects `id`). -/
structure Identity where
  id : Nat
deriving Repr, DecidableEq

/-- The identity store: the two tables base.js touches, plus the id the ORM
would assign to the next created `Core$Identity` row. -/
structure Database where
  identities : List Identity
  links : List LinkRecord
  nextId : Nat
deriving Repr, DecidableEq

/-- The session payload built by `identify`:
`{ authenticator: { account, name }, id?, deferred? }`.
An absent `id` is `none`; an absent `deferred` property is `false`. -/
structure User where
  authenticatorAccount : Account
  authenticatorName : String
  id : Option Nat
  deferred : Bool
deriving Repr, DecidableEq

/-- Events emitted on the host's event bus (`character.emit`).  The
`datetime` field models `new Date()` as the world's clock value. -/
inductive Event where
  | authenticateEv (datetime : Nat) (user : User)
  | onboardEv (account : Account) (datetime : Nat) (identity : Identity)
deriving Repr, DecidableEq

/-- The mutable host state a request can read or write: the database, the
emitted events, and the current time (used for `new Date()`). -/
structure World where
  db : Database
  events : List Event
  now : Nat
deriving Repr, DecidableEq

/-- Authenticator configuration surface used by base.js. -/
structure Config where
  successRedirect : String
  deferredRedirect : String
  failureRedirect : String
  onboardKnownAccounts : Bool
deriving Repr, DecidableEq

/-- Does a link row match the `where` clause of `findIdentity`'s query for
this account and authenticator name, and belong to identity `i`? -/
def linkMatches (name : String) (account : Account) (i : Identity)
    (l : LinkRecord) : Bool :=
  l.identityId == i.id && l.authenticatorAccountId == account.id
    && l.authenticatorName == name

/-- `findIdentity(account)` (base.js lines 112-133):
`Core$Identity.findOne` joined with `Authentication$Account` where
`authenticatorAccountId = account.id` and `authenticatorName = this.name`;
returns the first identity (in table order) having a matching link, or
null. -/
def findIdentity (name : String) (account : Account) (db : Database) :
    Option Identity :=
  db.identities.find? (fun i => db.links.any (linkMatches name account i))

/-- `character.emit('authentication:authenticate', { datetime, user })`. -/
def emitAuthenticate (user : User) (w : World) : World :=
  { w with events := w.events ++ [Event.authenticateEv w.now user] }

/-- `onboard(account)` (base.js lines 191-216): `Core$Identity.create` with
one included `Authentication$Account` row, then
`character.emit('authentication:onboard', { account, datetime, identity })`;
returns the new identity. -/
def onboard (name : String) (account : Account) (w : World) :
    Identity × World :=
  let identity : Identity := { id := w.db.nextId }
  let link : LinkRecord :=
    { authenticatorAccountId := account.id
      authenticatorName := name
      identityId := identity.id }
  let db : Database :=
    { identities := w.db.identities ++ [identity]
      links := w.db.links ++ [link]
      nextId := w.db.nextId + 1 }
  (identity,
    { w with
        db := db
        events := w.events ++ [Event.onboardEv account w.now identity] })

/-- `identify({ account, req, res })` (base.js lines 144-182).  Builds the
user payload; deferred accounts skip the store entirely; otherwise look up
the identity, or onboard when `config.onboardKnownAccounts`, or throw a
404 error; on every successful path emit `authentication:authenticate`. -/
def identify (name : String) (cfg : Config) (account : Account) (w : World) :
    Except Err (User × World) :=
  let user : User :=
    { authenticatorAccount := account
      authenticatorName := name
      id := none
      deferred := false }
  if account.deferred then
    let user := { user with deferred := true }
    .ok (user, emitAuthenticate user w)
  else
    match findIdentity name account w.db with
    | some identity =>
        let user := { user with id := some identity.id }
        .ok (user, emitAuthenticate user w)
    | none =>
        if cfg.onboardKnownAccounts then
          let p := onboard name account w
          let user := { user with id := some p.1.id }
          .ok (user, emitAuthenticate user p.2)
        else
          .error
            { message := "Could not find identity for account"
              httpStatusCode := some NOT_FOUND }

/-- `querystring.stringify` percent-encodes spaces; status texts contain
only letters and spaces, so this is the full encoding they need. -/
def qsEscape (s : String) : String :=
  String.mk (s.data.flatMap fun c =>
    if c = ' ' then ['%', '2', '0'] else [c])

/-- The query string built in receiver's catch block:
`queryString.stringify({ reason: httpCodeMessage[error.httpStatusCode || INTERNAL_SERVER_ERROR] })`. -/
def reasonQuery (e : Err) : String :=
  "reason=" ++
    qsEscape ((httpCodeMessage (e.httpStatusCode.getD INTERNAL_SERVER_ERROR)).getD "")

/-- A redirect response: `res.redirect(statusCode, url)`. -/
structure Response where
  status : Nat
  location : String
deriving Repr, DecidableEq

/-- The redirect issued by receiver's catch block (base.js lines 249-255). -/
def failureResponse (cfg : Config) (e : Err) : Response :=
  { status := SEE_OTHER, location := cfg.failureRedirect ++ "?" ++ reasonQuery e }

/-- What one call to `receiver` produced: the redirect it sent, the session
it set with `req.character.set` (if any), and the host state afterwards. -/
structure ReceiverOutcome where
  response : Response
  session : Option User
  world : World
deriving Repr, DecidableEq

/-- `receiver(req, res)` (base.js lines 225-256): the `asyncpipe` of
authenticate, identify, conditional session-set and redirect, wrapped in a
try/catch that maps any thrown error to the failure redirect.

The subclass `authenticate` hook and the two host collaborators that can
throw inside the pipeline are abstracted by parameters: `authResult` is
what `authenticate(context)` returned or threw, `sessionFail` injects an
exception from `req.character.set` and `redirectFail` one from the success
path's `res.redirect` (the catch block's own redirect is assumed to
succeed, as base.js does). -/
def receiver (name : String) (cfg : Config)
    (authResult : Except Err Account)
    (sessionFail : Option Err) (redirectFail : Option Err)
    (w : World) : ReceiverOutcome :=
  match authResult with
  | .error e => { response := failureResponse cfg e, session := none, world := w }
  | .ok account =>
    match identify name cfg account w with
    | .error e => { response := failureResponse cfg e, session := none, world := w }
    | .ok (user, w') =>
      if user.deferred then
        -- session-set is skipped for deferred users
        match redirectFail with
        | some e =>
            { response := failureResponse cfg e, session := none, world := w' }
        | none =>
            { response := { status := SEE_OTHER, location := cfg.deferredRedirect }
              session := none
              world := w' }
      else
        match sessionFail with
        | some e =>
            { response := failureResponse cfg e, session := none, world := w' }
        | none =>
          match redirectFail with
          | some e =>
              -- the session was already set when the redirect threw
              { response := failureResponse cfg e, session := some user, world := w' }
          | none =>
              { response := { status := SEE_OTHER, location := cfg.successRedirect }
                session := some user
                world := w' }

/-! ### Model binder (`attachModels`, base.js lines 46-54)

JS strings are modelled as `List Char` here because the binder computes on
them (`startsWith`, `slice`). -/

/-- The npm `capitalize` package: first character uppercased, the rest
lowercased. -/
def capitalizeJS (s : List Char) : List Char :=
  match s with
  | [] => []
  | c :: rest => c.toUpper :: rest.map Char.toLower

/-- The per-authenticator model name pattern:
`` `Authentication$${capitalize(this.name)}$` ``. -/
def namePfx (name : List Char) : List Char :=
  "Authentication$".data ++ capitalizeJS name ++ ['$']

/-- `attachModels()` (base.js lines 46-54): iterate the host registry
(`character.database.models`); every model whose name starts with the
pattern is bound under the name with that pattern sliced off.  Models are
opaque handles (`Nat`). -/
def attachModels (name : List Char) (registry : List (List Char × Nat)) :
    List (List Char × Nat) :=
  registry.filterMap fun p =>
    if (namePfx name).isPrefixOf p.1 then
      some (p.1.drop (namePfx name).length, p.2)
    else none

/-! ### JS object heap (for the constructor's `this.config = clone(config)`)

lodash `clone` copies an object's own properties one level deep; nested
objects stay shared between the original and the copy.  We model just
enough of the JS heap to state this: objects live at addresses, a value is
a primitive or a reference. -/

/-- A JS value as the configuration can hold one: string, boolean, or a
reference to another heap object. -/
inductive JSVal where
  | vstr (s : String)
  | vbool (b : Bool)
  | vref (addr : Nat)
deriving Repr, DecidableEq

/-- A JS object's own enumerable properties, in insertion order. -/
abbrev JSObj : Type := List (String × JSVal)

/-- A heap of JS objects. -/
structure Heap where
  objs : List (Nat × JSObj)
deriving Repr, DecidableEq

/-- Read the object stored at an address. -/
def Heap.lookup (h : Heap) (a : Nat) : Option JSObj :=
  (h.objs.find? fun p => p.1 == a).map (·.2)

/-- JS property assignment `o[k] = v`: overwrite in place or append. -/
def objSet (o : JSObj) (k : String) (v : JSVal) : JSObj :=
  if o.any (fun p => p.1 == k) then
    o.map fun p => if p.1 == k then (k, v) else p
  else o ++ [(k, v)]

/-- Mutate a property of the object at address `a`. -/
def Heap.setField (h : Heap) (a : Nat) (k : String) (v : JSVal) : Heap :=
  ⟨h.objs.map fun p => if p.1 == a then (p.1, objSet p.2 k v) else p⟩

/-- An address not yet used by the heap. -/
def Heap.freshAddr (h : Heap) : Nat :=
  (h.objs.map (·.1)).foldr max 0 + 1

/-- lodash `clone` (shallow): allocate a fresh object holding a copy of the
source object's own property list.  References among the property values
are copied as references, so nested objects remain shared. -/
def Heap.clone (h : Heap) (a : Nat) : Heap × Nat :=
  let c := h.freshAddr
  (⟨h.objs ++ [(c, (h.lookup a).getD [])]⟩, c)

/-- Read a property of the object at address `a`. -/
def Heap.getField (h : Heap) (a : Nat) (k : String) : Option JSVal :=
  ((h.lookup a).getD []).find? (fun p => p.1 == k) |>.map (·.2)

/-- Read `config[k1][k2]` through the heap: the value of a property of a
nested object of the configuration at `a`.  Observes what the stored
configuration denotes one level below the top. -/
def Heap.readNested (h : Heap) (a : Nat) (k1 k2 : String) : Option JSVal :=
  match h.getField a k1 with
  | some (.vref b) => h.getField b k2
  | _ => none

/-! ### Branch equations for `identify` (shared helper lemmas) -/

lemma identify_deferred_eq (name : String) (cfg : Config) (account : Account)
    (w : World) (h : account.deferred = true) :
    identify name cfg account w =
      .ok ({ authenticatorAccount := account, authenticatorName := name,
             id := none, deferred := true },
        { w with events := w.events ++
            [Event.authenticateEv w.now
              { authenticatorAccount := account, authenticatorName := name,
                id := none, deferred := true }] }) := by
  simp [identify, h, emitAuthenticate]

lemma identify_found_eq (name : String) (cfg : Config) (account : Account)
    (w : World) (identity : Identity)
    (hd : account.deferred = false)
    (hf : findIdentity name account w.db = some identity) :
    identify name cfg account w =
      .ok ({ authenticatorAccount := account, authenticatorName := name,
             id := some identity.id, deferred := false },
        { w with events := w.events ++
            [Event.authenticateEv w.now
              { authenticatorAccount := account, authenticatorName := name,
                id := some identity.id, deferred := false }] }) := by
  simp [identify, hd, hf, emitAuthenticate]

lemma identify_onboard_eq (name : String) (cfg : Config) (account : Account)
    (w : World)
    (hd : account.deferred = false)
    (hf : findIdentity name account w.db = none)
    (hc : cfg.onboardKnownAccounts = true) :
    identify name cfg account w =
      .ok ({ authenticatorAccount := account, authenticatorName := name,
             id := some w.db.nextId, deferred := false },
        { db :=
            { identities := w.db.identities ++ [{ id := w.db.nextId }]
              links := w.db.links ++
                [{ authenticatorAccountId := account.id
                   authenticatorName := name
                   identityId := w.db.nextId }]
              nextId := w.db.nextId + 1 }
          events := w.events ++
            [Event.onboardEv account w.now { id := w.db.nextId },
             Event.authenticateEv w.now
               { authenticatorAccount := account, authenticatorName := name,
                 id := some w.db.nextId, deferred := false }]
          now := w.now }) := by
  simp [identify, hd, hf, hc, onboard, emitAuthenticate]

lemma identify_notFound_eq (name : String) (cfg : Config) (account : Account)
    (w : World)
    (hd : account.deferred = false)
    (hf : findIdentity name account w.db = none)
    (hc : cfg.onboardKnownAccounts = false) :
    identify name cfg account w =
      .error { message := "Could not find identity for account"
               httpStatusCode := some NOT_FOUND } := by
  simp [identify, hd, hf, hc]

/-! ### Claim theorems -/

/-- C1: for every account whose deferred flag is set, `identify` touches no
identity store (the database is unchanged and the result does not depend on
its contents), creates nothing, and returns a user with `deferred = true`
and no `id`; only the authenticate event is appended. -/
theorem C1_identify_deferred (name : String) (cfg : Config) (account : Account)
    (w : World) (h : account.deferred = true) :
    identify name cfg account w =
      .ok ({ authenticatorAccount := account, authenticatorName := name,
             id := none, deferred := true },
        { w with events := w.events ++
            [Event.authenticateEv w.now
              { authenticatorAccount := account, authenticatorName := name,
                id := none, deferred := true }] }) :=
  identify_deferred_eq name cfg account w h

/-- Witness for C1 at a concrete deferred account. -/
theorem C1_identify_deferred_witness :
    identify "local"
      { successRedirect := "/s", deferredRedirect := "/d",
        failureRedirect := "/f", onboardKnownAccounts := true }
      { id := 7, deferred := true }
      { db := { identities := [], links := [], nextId := 0 }, events := [], now := 5 } =
      .ok ({ authenticatorAccount := { id := 7, deferred := true },
             authenticatorName := "local", id := none, deferred := true },
        { db := { identities := [], links := [], nextId := 0 }
          events := [Event.authenticateEv 5
            { authenticatorAccount := { id := 7, deferred := true },
              authenticatorName := "local", id := none, deferred := true }]
          now := 5 }) :=
  C1_identify_deferred "local" _ _ _ rfl

/-- C2: for every non-deferred account with an existing linked identity,
`identify` returns a user whose `id` is that identity's id; the database is
unchanged, no onboard event is emitted (onboard is never reached). -/
theorem C2_identify_found (name : String) (cfg : Config) (account : Account)
    (w : World) (identity : Identity)
    (hd : account.deferred = false)
    (hf : findIdentity name account w.db = some identity) :
    identify name cfg account w =
      .ok ({ authenticatorAccount := account, authenticatorName := name,
             id := some identity.id, deferred := false },
        { w with events := w.events ++
            [Event.authenticateEv w.now
              { authenticatorAccount := account, authenticatorName := name,
                id := some identity.id, deferred := false }] }) :=
  identify_found_eq name cfg account w identity hd hf

/-- Witness for C2: one identity (id 3) linked to account 7. -/
theorem C2_identify_found_witness :
    identify "local"
      { successRedirect := "/s", deferredRedirect := "/d",
        failureRedirect := "/f", onboardKnownAccounts := false }
      { id := 7, deferred := false }
      { db := { identities := [{ id := 3 }],
                links := [{ authenticatorAccountId := 7,
                            authenticatorName := "local", identityId := 3 }],
                nextId := 4 },
        events := [], now := 9 } =
      .ok ({ authenticatorAccount := { id := 7, deferred := false },
             authenticatorName := "local", id := some 3, deferred := false },
        { db := { identities := [{ id := 3 }],
                  links := [{ authenticatorAccountId := 7,
                              authenticatorName := "local", identityId := 3 }],
                  nextId := 4 }
          events := [Event.authenticateEv 9
            { authenticatorAccount := { id := 7, deferred := false },
              authenticatorName := "local", id := some 3, deferred := false }]
          now := 9 }) :=
  C2_identify_found "local" _ _ _ { id := 3 } rfl (by decide)

/-- C3: for every non-deferred account with no linked identity and
`onboardKnownAccounts = true`, `identify` creates exactly one new identity
(id `nextId`) with exactly one link record, emits the onboard event with
the account, that identity and the timestamp, and returns a user whose
`id` is the new identity's id. -/
theorem C3_identify_onboards (name : String) (cfg : Config) (account : Account)
    (w : World)
    (hd : account.deferred = false)
    (hf : findIdentity name account w.db = none)
    (hc : cfg.onboardKnownAccounts = true) :
    identify name cfg account w =
      .ok ({ authenticatorAccount := account, authenticatorName := name,
             id := some w.db.nextId, deferred := false },
        { db :=
            { identities := w.db.identities ++ [{ id := w.db.nextId }]
              links := w.db.links ++
                [{ authenticatorAccountId := account.id
                   authenticatorName := name
                   identityId := w.db.nextId }]
              nextId := w.db.nextId + 1 }
          events := w.events ++
            [Event.onboardEv account w.now { id := w.db.nextId },
             Event.authenticateEv w.now
               { authenticatorAccount := account, authenticatorName := name,
                 id := some w.db.nextId, deferred := false }]
          now := w.now }) :=
  identify_onboard_eq name cfg account w hd hf hc

/-- Witness for C3: empty store, onboarding enabled, account 7. -/
theorem C3_identify_onboards_witness :
    identify "local"
      { successRedirect := "/s", deferredRedirect := "/d",
        failureRedirect := "/f", onboardKnownAccounts := true }
      { id := 7, deferred := false }
      { db := { identities := [], links := [], nextId := 0 }, events := [], now := 2 } =
      .ok ({ authenticatorAccount := { id := 7, deferred := false },
             authenticatorName := "local", id := some 0, deferred := false },
        { db := { identities := [{ id := 0 }],
                  links := [{ authenticatorAccountId := 7,
                              authenticatorName := "local", identityId := 0 }],
                  nextId := 1 }
          events := [Event.onboardEv { id := 7, deferred := false } 2 { id := 0 },
            Event.authenticateEv 2
              { authenticatorAccount := { id := 7, deferred := false },
                authenticatorName := "local", id := some 0, deferred := false }]
          now := 2 }) :=
  C3_identify_onboards "local" _ _ _ rfl (by decide) rfl

/-- C4: for every non-deferred account with no linked identity and
`onboardKnownAccounts = false`, `identify` throws the 404 error, and
`receiver` leaves the world untouched on that path (no records created, no
authenticate event emitted). -/
theorem C4_identify_notFound (name : String) (cfg : Config) (account : Account)
    (w : World)
    (hd : account.deferred = false)
    (hf : findIdentity name account w.db = none)
    (hc : cfg.onboardKnownAccounts = false) :
    identify name cfg account w =
      .error { message := "Could not find identity for account"
               httpStatusCode := some NOT_FOUND } ∧
    NOT_FOUND = 404 ∧
    ∀ sessionFail redirectFail,
      receiver name cfg (.ok account) sessionFail redirectFail w =
        { response := failureResponse cfg
            { message := "Could not find identity for account"
              httpStatusCode := some NOT_FOUND }
          session := none
          world := w } := by
  refine ⟨identify_notFound_eq name cfg account w hd hf hc, rfl, ?_⟩
  intro sessionFail redirectFail
  simp [receiver, identify_notFound_eq name cfg account w hd hf hc]

/-- Witness for C4: empty store, onboarding disabled, account 7. -/
theorem C4_identify_notFound_witness :
    identify "local"
      { successRedirect := "/s", deferredRedirect := "/d",
        failureRedirect := "/f", onboardKnownAccounts := false }
      { id := 7, deferred := false }
      { db := { identities := [], links := [], nextId := 0 }, events := [], now := 1 } =
      .error { message := "Could not find identity for account"
               httpStatusCode := some NOT_FOUND } ∧
    NOT_FOUND = 404 ∧
    ∀ sessionFail redirectFail,
      receiver "local"
        { successRedirect := "/s", deferredRedirect := "/d",
          failureRedirect := "/f", onboardKnownAccounts := false }
        (.ok { id := 7, deferred := false }) sessionFail redirectFail
        { db := { identities := [], links := [], nextId := 0 }, events := [], now := 1 } =
        { response := failureResponse
            { successRedirect := "/s", deferredRedirect := "/d",
              failureRedirect := "/f", onboardKnownAccounts := false }
            { message := "Could not find identity for account"
              httpStatusCode := some NOT_FOUND }
          session := none
          world := { db := { identities := [], links := [], nextId := 0 },
                     events := [], now := 1 } } :=
  C4_identify_notFound "local" _ _ _ rfl (by decide) rfl

/-! ### Round-trip between `onboard` and `findIdentity` (C5) -/

lemma find_matching_append (name : String) (account : Account)
    (ids : List Identity) (links : List LinkRecord) (n : Nat)
    (h : ids.find? (fun i => links.any (linkMatches name account i)) = none) :
    (ids ++ [Identity.mk n]).find?
      (fun i => (links ++ [LinkRecord.mk account.id name n]).any
        (linkMatches name account i)) = some (Identity.mk n) := by
  induction ids with
  | nil =>
      rw [List.nil_append, List.find?_cons_of_pos]
      simp [linkMatches]
  | cons i rest ih =>
      obtain ⟨iid⟩ := i
      rw [List.find?_eq_none] at h
      have hi := h (Identity.mk iid) (by simp)
      have hrest :
          rest.find? (fun i => links.any (linkMatches name account i)) = none := by
        rw [List.find?_eq_none]
        exact fun x hx => h x (List.mem_cons_of_mem _ hx)
      by_cases hn : iid = n
      · subst hn
        rw [List.cons_append, List.find?_cons_of_pos]
        simp [linkMatches]
      · rw [List.cons_append, List.find?_cons_of_neg]
        · exact ih hrest
        · have hn' : n ≠ iid := fun e => hn e.symm
          simp only [List.any_append, Bool.or_eq_true, not_or]
          constructor
          · simpa using hi
          · simp [linkMatches, hn']

/-- C5 counterexample: when a link for the same (account id, authenticator
name) pair already exists, `findIdentity` after `onboard` returns the
pre-existing identity (id 1), not the freshly onboarded one (id 2), so the
unconditional round-trip fails. -/
theorem C5_roundTrip_counterexample :
    (onboard "local" (Account.mk 7 false)
        (World.mk (Database.mk [Identity.mk 1]
          [LinkRecord.mk 7 "local" 1] 2) [] 0)).1 = Identity.mk 2 ∧
    findIdentity "local" (Account.mk 7 false)
      (onboard "local" (Account.mk 7 false)
        (World.mk (Database.mk [Identity.mk 1]
          [LinkRecord.mk 7 "local" 1] 2) [] 0)).2.db = some (Identity.mk 1) ∧
    findIdentity "local" (Account.mk 7 false)
      (onboard "local" (Account.mk 7 false)
        (World.mk (Database.mk [Identity.mk 1]
          [LinkRecord.mk 7 "local" 1] 2) [] 0)).2.db ≠
      some (onboard "local" (Account.mk 7 false)
        (World.mk (Database.mk [Identity.mk 1]
          [LinkRecord.mk 7 "local" 1] 2) [] 0)).1 :=
  ⟨rfl, by decide, by decide⟩

/-- C5 (amended): if no identity was linked to the account's external id
under this authenticator name before the onboard — the situation in which
`identify` ever calls `onboard` — then a subsequent `findIdentity` for the
same external id and name returns exactly the onboarded identity. -/
theorem C5_onboard_findIdentity_roundTrip (name : String) (account : Account)
    (w : World)
    (h : findIdentity name account w.db = none) :
    findIdentity name account (onboard name account w).2.db =
      some (onboard name account w).1 := by
  unfold findIdentity at h
  unfold onboard findIdentity
  exact find_matching_append name account w.db.identities w.db.links w.db.nextId h

/-- Witness for C5 at a store holding one unrelated identity. -/
theorem C5_onboard_findIdentity_roundTrip_witness :
    findIdentity "local" (Account.mk 7 false)
      (World.mk (Database.mk [Identity.mk 0]
        [LinkRecord.mk 9 "local" 0] 1) [] 3).db = none ∧
    findIdentity "local" (Account.mk 7 false)
      (onboard "local" (Account.mk 7 false)
        (World.mk (Database.mk [Identity.mk 0]
          [LinkRecord.mk 9 "local" 0] 1) [] 3)).2.db =
      some (onboard "local" (Account.mk 7 false)
        (World.mk (Database.mk [Identity.mk 0]
          [LinkRecord.mk 9 "local" 0] 1) [] 3)).1 :=
  ⟨by decide, C5_onboard_findIdentity_roundTrip "local" _ _ (by decide)⟩

/-! ### Receiver pipeline outcomes (C6, C7) and event emission (C10) -/

/-- C6: whichever pipeline step throws — authenticate, identify,
session-set, or the success-path redirect — `receiver` answers with the
single See Other (303) redirect to `failureRedirect` suffixed by
`?reason=<status text of the error code>`, and an unset `httpStatusCode`
yields Internal Server Error's text. -/
theorem C6_receiver_failure (name : String) (cfg : Config) (w : World) (e : Err) :
    (∀ sessionFail redirectFail,
      receiver name cfg (.error e) sessionFail redirectFail w =
        { response := failureResponse cfg e, session := none, world := w }) ∧
    (∀ account sessionFail redirectFail,
      identify name cfg account w = .error e →
      receiver name cfg (.ok account) sessionFail redirectFail w =
        { response := failureResponse cfg e, session := none, world := w }) ∧
    (∀ account u w' redirectFail,
      identify name cfg account w = .ok (u, w') → u.deferred = false →
      (receiver name cfg (.ok account) (some e) redirectFail w).response =
        failureResponse cfg e) ∧
    (∀ account u w' sessionFail,
      identify name cfg account w = .ok (u, w') → u.deferred = true →
      (receiver name cfg (.ok account) sessionFail (some e) w).response =
        failureResponse cfg e) ∧
    (∀ account u w',
      identify name cfg account w = .ok (u, w') → u.deferred = false →
      (receiver name cfg (.ok account) none (some e) w).response =
        failureResponse cfg e) ∧
    failureResponse cfg e =
      { status := SEE_OTHER
        location := cfg.failureRedirect ++ "?" ++ reasonQuery e } ∧
    reasonQuery e = "reason=" ++
      qsEscape ((httpCodeMessage
        (e.httpStatusCode.getD INTERNAL_SERVER_ERROR)).getD "") ∧
    (e.httpStatusCode = none →
      (httpCodeMessage (e.httpStatusCode.getD INTERNAL_SERVER_ERROR)).getD "" =
        "Internal Server Error") := by
  refine ⟨?_, ?_, ?_, ?_, ?_, rfl, rfl, ?_⟩
  · intro sessionFail redirectFail
    simp [receiver]
  · intro account sessionFail redirectFail hid
    simp [receiver, hid]
  · intro account u w' redirectFail hid hu
    simp [receiver, hid, hu]
  · intro account u w' sessionFail hid hu
    simp [receiver, hid, hu]
  · intro account u w' hid hu
    simp [receiver, hid, hu]
  · intro hnone
    rw [hnone]
    rfl

/-- Witness for C6: a failing identify (404, empty store, onboarding off)
redirects to `/f?reason=Not%20Found`, and an error without a status code
yields Internal Server Error's text. -/
theorem C6_receiver_failure_witness :
    receiver "local"
      (Config.mk "/s" "/d" "/f" false)
      (.ok (Account.mk 7 false)) none none
      (World.mk (Database.mk [] [] 0) [] 1) =
      { response := Response.mk 303 "/f?reason=Not%20Found"
        session := none
        world := World.mk (Database.mk [] [] 0) [] 1 } ∧
    receiver "local"
      (Config.mk "/s" "/d" "/f" false)
      (.error (Err.mk "boom" none)) none none
      (World.mk (Database.mk [] [] 0) [] 1) =
      { response := Response.mk 303 "/f?reason=Internal%20Server%20Error"
        session := none
        world := World.mk (Database.mk [] [] 0) [] 1 } :=
  ⟨(C6_receiver_failure "local" (Config.mk "/s" "/d" "/f" false)
      (World.mk (Database.mk [] [] 0) [] 1)
      (Err.mk "Could not find identity for account" (some NOT_FOUND))).2.1
      (Account.mk 7 false) none none rfl,
   (C6_receiver_failure "local" (Config.mk "/s" "/d" "/f" false)
      (World.mk (Database.mk [] [] 0) [] 1)
      (Err.mk "boom" none)).1 none none⟩

/-- C7: on a successful pipeline run, the session is set with the user
exactly when the user is not deferred, and the single 303 redirect targets
`successRedirect` for a non-deferred user and `deferredRedirect` for a
deferred one (for which no session is set). -/
theorem C7_receiver_success (name : String) (cfg : Config) (account : Account)
    (w : World) (u : User) (w' : World)
    (h : identify name cfg account w = .ok (u, w')) :
    (u.deferred = false →
      receiver name cfg (.ok account) none none w =
        { response := { status := SEE_OTHER, location := cfg.successRedirect }
          session := some u
          world := w' }) ∧
    (u.deferred = true → ∀ sessionFail,
      receiver name cfg (.ok account) sessionFail none w =
        { response := { status := SEE_OTHER, location := cfg.deferredRedirect }
          session := none
          world := w' }) := by
  constructor
  · intro hu
    simp [receiver, h, hu]
  · intro hu sessionFail
    simp [receiver, h, hu]

/-- Witness for C7: a non-deferred account with a linked identity reaches
the success redirect with a session; a deferred account reaches the
deferred redirect with none. -/
theorem C7_receiver_success_witness :
    receiver "local" (Config.mk "/s" "/d" "/f" false)
      (.ok (Account.mk 7 false)) none none
      (World.mk (Database.mk [Identity.mk 3] [LinkRecord.mk 7 "local" 3] 4) [] 9) =
      { response := Response.mk 303 "/s"
        session := some (User.mk (Account.mk 7 false) "local" (some 3) false)
        world := World.mk (Database.mk [Identity.mk 3] [LinkRecord.mk 7 "local" 3] 4)
          [Event.authenticateEv 9 (User.mk (Account.mk 7 false) "local" (some 3) false)] 9 } ∧
    receiver "local" (Config.mk "/s" "/d" "/f" false)
      (.ok (Account.mk 7 true)) (some (Err.mk "ignored" none)) none
      (World.mk (Database.mk [] [] 0) [] 5) =
      { response := Response.mk 303 "/d"
        session := none
        world := World.mk (Database.mk [] [] 0)
          [Event.authenticateEv 5 (User.mk (Account.mk 7 true) "local" none true)] 5 } :=
  ⟨(C7_receiver_success "local" (Config.mk "/s" "/d" "/f" false)
      (Account.mk 7 false)
      (World.mk (Database.mk [Identity.mk 3] [LinkRecord.mk 7 "local" 3] 4) [] 9)
      (User.mk (Account.mk 7 false) "local" (some 3) false)
      (World.mk (Database.mk [Identity.mk 3] [LinkRecord.mk 7 "local" 3] 4)
        [Event.authenticateEv 9 (User.mk (Account.mk 7 false) "local" (some 3) false)] 9)
      rfl).1 rfl,
   (C7_receiver_success "local" (Config.mk "/s" "/d" "/f" false)
      (Account.mk 7 true)
      (World.mk (Database.mk [] [] 0) [] 5)
      (User.mk (Account.mk 7 true) "local" none true)
      (World.mk (Database.mk [] [] 0)
        [Event.authenticateEv 5 (User.mk (Account.mk 7 true) "local" none true)] 5)
      rfl).2 rfl (some (Err.mk "ignored" none))⟩

/-- C10: every successful return of `identify` appends the
`authentication:authenticate` event carrying the returned user and the
timestamp — also on the deferred path, where no store access happens and
no session will be set. -/
theorem C10_identify_emits_authenticate (name : String) (cfg : Config)
    (account : Account) (w : World) (u : User) (w' : World)
    (h : identify name cfg account w = .ok (u, w')) :
    ∃ mid, w'.events = w.events ++ mid ++ [Event.authenticateEv w.now u] := by
  by_cases hd : account.deferred = true
  · rw [identify_deferred_eq name cfg account w hd] at h
    simp only [Except.ok.injEq, Prod.mk.injEq] at h
    obtain ⟨hu, hw⟩ := h
    subst hu
    subst hw
    exact ⟨[], by simp⟩
  · have hd' : account.deferred = false := by simpa using hd
    cases hf : findIdentity name account w.db with
    | some identity =>
        rw [identify_found_eq name cfg account w identity hd' hf] at h
        simp only [Except.ok.injEq, Prod.mk.injEq] at h
        obtain ⟨hu, hw⟩ := h
        subst hu
        subst hw
        exact ⟨[], by simp⟩
    | none =>
        cases hc : cfg.onboardKnownAccounts with
        | true =>
            rw [identify_onboard_eq name cfg account w hd' hf hc] at h
            simp only [Except.ok.injEq, Prod.mk.injEq] at h
            obtain ⟨hu, hw⟩ := h
            subst hu
            subst hw
            exact ⟨[Event.onboardEv account w.now (Identity.mk w.db.nextId)], by simp⟩
        | false =>
            rw [identify_notFound_eq name cfg account w hd' hf hc] at h
            exact absurd h (by simp)

/-- Witness for C10 on the deferred path. -/
theorem C10_identify_emits_authenticate_witness :
    ∃ mid,
      (World.mk (Database.mk [] [] 0)
        [Event.authenticateEv 5 (User.mk (Account.mk 7 true) "local" none true)] 5).events =
      (World.mk (Database.mk [] [] 0) [] 5).events ++ mid ++
        [Event.authenticateEv 5 (User.mk (Account.mk 7 true) "local" none true)] :=
  C10_identify_emits_authenticate "local" (Config.mk "/s" "/d" "/f" false)
    (Account.mk 7 true)
    (World.mk (Database.mk [] [] 0) [] 5)
    (User.mk (Account.mk 7 true) "local" none true)
    (World.mk (Database.mk [] [] 0)
      [Event.authenticateEv 5 (User.mk (Account.mk 7 true) "local" none true)] 5)
    rfl

/-! ### Constructor configuration copy (C8) -/

lemma mem_le_foldr_max (l : List Nat) (x : Nat) (hx : x ∈ l) :
    x ≤ l.foldr max 0 := by
  induction l with
  | nil => cases hx
  | cons a t ih =>
      rcases List.mem_cons.mp hx with h | h
      · subst h
        exact le_max_left _ _
      · exact le_trans (ih h) (le_max_right _ _)

lemma lookup_setField_ne (h : Heap) (a c : Nat) (k : String) (v : JSVal)
    (hne : c ≠ a) :
    (h.setField a k v).lookup c = h.lookup c := by
  obtain ⟨l⟩ := h
  unfold Heap.setField Heap.lookup
  simp only
  rw [List.find?_map]
  have hpred : ((fun p : Nat × JSObj => p.1 == c) ∘
      (fun p : Nat × JSObj => if p.1 == a then (p.1, objSet p.2 k v) else p)) =
      (fun p : Nat × JSObj => p.1 == c) := by
    funext p
    by_cases hp : p.1 = a <;> simp [hp]
  rw [hpred]
  cases hfind : l.find? (fun p => p.1 == c) with
  | none => rfl
  | some q =>
      have hq : (q.1 == c) = true := by simpa using List.find?_some hfind
      have hqc : q.1 = c := by simpa using hq
      have hqa : ¬ q.1 = a := by
        rw [hqc]
        exact hne
      simp [hqa]

lemma lookup_append_fresh (l : List (Nat × JSObj)) (c : Nat) (obj : JSObj)
    (hfresh : ∀ p ∈ l, p.1 ≠ c) :
    (Heap.mk (l ++ [(c, obj)])).lookup c = some obj := by
  unfold Heap.lookup
  have hnone : l.find? (fun p => p.1 == c) = none := by
    rw [List.find?_eq_none]
    intro p hp
    simpa using hfresh p hp
  rw [List.find?_append, hnone]
  simp

/-- C8 counterexample heap: a config object (address 0) holding a top-level
redirect URL and a reference to a nested object (address 1). -/
def cloneDemoHeap : Heap :=
  Heap.mk
    [(0, [("successRedirect", JSVal.vstr "/ok"), ("nested", JSVal.vref 1)]),
     (1, [("x", JSVal.vstr "old")])]

/-- C8 counterexample: lodash `clone` is shallow.  After cloning the config
at address 0 (the copy lands at address 2), the caller mutates the nested
object at address 1 through its own reference; the value the stored
configuration denotes at `config.nested.x` changes from "old" to "new", so
the stored configuration does not stay unchanged under every mutation of
the caller's config. -/
theorem C8_clone_counterexample :
    (cloneDemoHeap.clone 0).2 = 2 ∧
    (cloneDemoHeap.clone 0).1.readNested 2 "nested" "x" =
      some (JSVal.vstr "old") ∧
    ((cloneDemoHeap.clone 0).1.setField 1 "x" (JSVal.vstr "new")).readNested
      2 "nested" "x" = some (JSVal.vstr "new") ∧
    ((cloneDemoHeap.clone 0).1.setField 1 "x" (JSVal.vstr "new")).readNested
      2 "nested" "x" ≠
      (cloneDemoHeap.clone 0).1.readNested 2 "nested" "x" := by
  refine ⟨rfl, by decide, by decide, by decide⟩

/-- C8 (amended): the constructor's `clone` is a shallow defensive copy: it
allocates a fresh object equal to the caller's config one level deep, and
reassigning any top-level property of the caller's config afterwards
leaves the stored configuration object unchanged.  (Mutations inside
nested objects remain visible, as the counterexample shows.) -/
theorem C8_clone_shallow_defensive (h : Heap) (a : Nat) (k : String) (v : JSVal)
    (ha : a ∈ h.objs.map (fun p => p.1)) :
    ((h.clone a).1.setField a k v).lookup (h.clone a).2 =
      (h.clone a).1.lookup (h.clone a).2 ∧
    (h.clone a).1.lookup (h.clone a).2 = some ((h.lookup a).getD []) := by
  have hmax : a ≤ (h.objs.map (fun p => p.1)).foldr max 0 :=
    mem_le_foldr_max _ a ha
  have hne : h.freshAddr ≠ a := by
    unfold Heap.freshAddr
    omega
  constructor
  · exact lookup_setField_ne _ a (h.clone a).2 k v hne
  · refine lookup_append_fresh h.objs h.freshAddr ((h.lookup a).getD []) ?_
    intro p hp
    have hple : p.1 ≤ (h.objs.map (fun p => p.1)).foldr max 0 :=
      mem_le_foldr_max _ p.1 (List.mem_map_of_mem (fun p => p.1) hp)
    unfold Heap.freshAddr
    omega

/-- Witness for C8 at the demo heap: reassigning the top-level
`successRedirect` of the caller's config does not change the stored copy. -/
theorem C8_clone_shallow_defensive_witness :
    ((cloneDemoHeap.clone 0).1.setField 0 "successRedirect"
        (JSVal.vstr "/changed")).lookup (cloneDemoHeap.clone 0).2 =
      (cloneDemoHeap.clone 0).1.lookup (cloneDemoHeap.clone 0).2 ∧
    (cloneDemoHeap.clone 0).1.lookup (cloneDemoHeap.clone 0).2 =
      some ((cloneDemoHeap.lookup 0).getD []) :=
  C8_clone_shallow_defensive cloneDemoHeap 0 "successRedirect"
    (JSVal.vstr "/changed") (by decide)

/-! ### Model binder (C9) -/

/-- C9: `attachModels` binds exactly the registry entries whose names start
with `Authentication$<CapitalizedName>$`, each under the short name left
after stripping that pattern; nothing else is bound. -/
theorem C9_attachModels_mem_iff (name short : List Char) (m : Nat)
    (registry : List (List Char × Nat)) :
    (short, m) ∈ attachModels name registry ↔
      (namePfx name ++ short, m) ∈ registry := by
  unfold attachModels
  rw [List.mem_filterMap]
  constructor
  · rintro ⟨⟨nm, mdl⟩, hp, hf⟩
    by_cases hpre : ((namePfx name).isPrefixOf nm) = true
    · rw [if_pos hpre] at hf
      obtain ⟨t, ht⟩ := List.isPrefixOf_iff_prefix.mp hpre
      simp only [Option.some.injEq, Prod.mk.injEq] at hf
      obtain ⟨hdrop, hm⟩ := hf
      subst hm
      subst ht
      rw [List.drop_left] at hdrop
      subst hdrop
      exact hp
    · rw [if_neg hpre] at hf
      cases hf
  · intro hmem
    refine ⟨(namePfx name ++ short, m), hmem, ?_⟩
    rw [if_pos (List.isPrefixOf_iff_prefix.mpr (List.prefix_append _ _))]
    simp [List.drop_left]

end CharacterAuth
